import Mathlib

/-!
Verification of the order-management layer of the OpenAlgo trading app
(`server.py` / `standalone_server.py`).

The embedding below translates the order-ledger and position-translator
functions of `server.py` into Lean.  `standalone_server.py` contains the
same functions with line-for-line identical logic (its `sync_order_status`
first tests `order_id in orderbook_orders` before reading the mapping,
which is equivalent to the `dict.get` used in `server.py`); the embedding
therefore covers both files.

File I/O is made explicit: each function that reads or writes the orders
file (`ORDERS_FILE`) takes the currently persisted list of records as an
argument and returns, along with its result, the list persisted after the
call.  The wall clock is made explicit as well: `datetime.date.today()`
and `datetime.date.fromtimestamp` are abstracted into a `today : Nat`
value and a `dayOf : Nat → Nat` function mapping an epoch-seconds
timestamp to its local calendar date (the code only ever compares the two
`isoformat` strings for equality, so any faithful encoding of calendar
dates works; `Nat` is used here).
-/

namespace TradingApp

/-- ASCII lower-casing of a character, as Python `str.lower` acts on the
ASCII broker-status strings this program feeds it. -/
def lowerChar (c : Char) : Char :=
  if 'A' ≤ c ∧ c ≤ 'Z' then Char.ofNat (c.toNat + 32) else c

/-- ASCII lower-casing of a string: Python `str.lower()` restricted to the
ASCII strings (broker statuses) the program applies it to. -/
def lowerStr (s : String) : String := ⟨s.data.map lowerChar⟩

/-- A record of the order ledger, as written by `store_order` and stored in
`ORDERS_FILE`.  `timestamp` is `Option Nat` because records read back from
the JSON file may lack the field: `o.get('timestamp', 0)` defaults it to 0,
which `timestampD` mirrors. -/
structure OrderRec where
  order_id : String
  timestamp : Option Nat
  symbol : String
  action : String
  quantity : Nat
  price : Option String
  pricetype : String
  status : String
deriving Repr, DecidableEq

/-- Python `o.get('timestamp', 0)`. -/
def timestampD (o : OrderRec) : Nat := o.timestamp.getD 0

/-- Python `min((o.get('timestamp', 0) for o in orders), default=0)`:
the minimum of the (defaulted) timestamps, 0 for an empty ledger. -/
def oldestTimestamp (orders : List OrderRec) : Nat :=
  match orders.map timestampD with
  | [] => 0
  | t :: ts => ts.foldl Nat.min t

/-- `load_orders` of `server.py` (lines 77–91; identical in
`standalone_server.py` lines 71–90).  `stored` is the parsed content of
`ORDERS_FILE`.  Returns the pair (list returned to the caller, list
persisted in the file after the call): on a day rollover the code runs
`save_orders([])` and returns `[]`, otherwise the file is untouched.
The Python `if oldest` truthiness test is `oldest ≠ 0`; the local
`order_date = fromtimestamp(oldest) if oldest else today` is inlined into
the comparison. -/
def load_orders (dayOf : Nat → Nat) (today : Nat) (stored : List OrderRec) :
    List OrderRec × List OrderRec :=
  if stored ≠ [] then
    if (if oldestTimestamp stored ≠ 0 then dayOf (oldestTimestamp stored) else today)
        ≠ today then ([], [])
    else (stored, stored)
  else (stored, stored)

/-- `store_order` of `server.py` (lines 100–113): loads the ledger (with
its possible day-rollover reset), appends a new `pending` record stamped
with the current time `now`, and persists.  Returns the persisted list. -/
def store_order (dayOf : Nat → Nat) (today : Nat) (stored : List OrderRec)
    (order_id symbol action : String) (quantity : Nat)
    (price : Option String) (pricetype : String) (now : Nat) : List OrderRec :=
  (load_orders dayOf today stored).1 ++
    [{ order_id := order_id, timestamp := some now, symbol := symbol,
       action := action, quantity := quantity, price := price,
       pricetype := pricetype, status := "pending" }]

/-- One entry of the broker orderbook response (`orderid`, `status`). -/
structure BrokerOrder where
  orderid : String
  status : String
deriving Repr, DecidableEq

/-- The `data` field of the orderbook response: the code tolerates both a
bare list and a dict `\x7b"orders": [...]\x7d` (`isinstance(orders_data, dict)`
branch). -/
inductive OrderbookData where
  | asList : List BrokerOrder → OrderbookData
  | asDict : List BrokerOrder → OrderbookData
deriving Repr, DecidableEq

/-- `orders_list = orders_data.get('orders', []) if isinstance(orders_data, dict)
else orders_data`. -/
def ordersList : OrderbookData → List BrokerOrder
  | .asList l => l
  | .asDict l => l

/-- Parsed broker response to the `orderbook` query. -/
structure OrderbookResult where
  status : String
  data : OrderbookData
deriving Repr, DecidableEq

/-- Python dict lookup `d.get(k)` on an association list built by repeated
assignment: the most recently inserted binding for a key wins. -/
def mapGet (m : List (String × String)) (k : String) : Option String :=
  match m with
  | [] => none
  | (k', v) :: rest =>
    match mapGet rest k with
    | some v' => some v'
    | none => if k' = k then some v else none

/-- The `orderbook_map` built by `sync_order_status`: empty unless the
broker reply has `status == 'success'`, else one binding
`orderid ↦ status` per orderbook entry. -/
def buildOrderbookMap (res : OrderbookResult) : List (String × String) :=
  if res.status = "success" then
    (ordersList res.data).map (fun o => (o.orderid, o.status))
  else []

/-- The recognised terminal broker statuses:
`['COMPLETE', 'REJECTED', 'CANCELLED', 'CLOSED']`. -/
def terminalBroker : List String := ["COMPLETE", "REJECTED", "CANCELLED", "CLOSED"]

/-- The body of the `for local in orders` loop of `sync_order_status`
(`server.py` lines 131–136) acting on one record: returns the (possibly
updated) record and whether it changed (`updated` contribution). -/
def syncOne (map : List (String × String)) (o : OrderRec) : OrderRec × Bool :=
  if o.status = "pending" then
    match mapGet map o.order_id with
    | some bs =>
      if bs ∈ terminalBroker then ({ o with status := lowerStr bs }, true)
      else (o, false)
    | none => (o, false)
  else (o, false)

/-- The ledger after the `sync_order_status` update loop. -/
def applySync (map : List (String × String)) (orders : List OrderRec) : List OrderRec :=
  orders.map (fun o => (syncOne map o).1)

/-- Whether the `sync_order_status` update loop set `updated = True`. -/
def anySyncUpdate (map : List (String × String)) (orders : List OrderRec) : Bool :=
  orders.any (fun o => (syncOne map o).2)

/-- Result of `sync_order_status`: the returned JSON fields and the ledger
persisted after the call. -/
structure SyncOutcome where
  status : String
  updated : Bool
  ledger : List OrderRec
deriving Repr, DecidableEq

/-- `sync_order_status` of `server.py` (lines 120–139; identical logic in
`standalone_server.py` lines 122–151).  `res` is the broker's reply to the
`orderbook` query (`api_post` turns every communication failure into a
dict with `status ≠ 'success'`, so a failed query is a `res` with
non-success status).  The persisted ledger is `save_orders(orders)` when
`updated`, else whatever `load_orders` left in the file. -/
def sync_order_status (res : OrderbookResult) (dayOf : Nat → Nat) (today : Nat)
    (stored : List OrderRec) : SyncOutcome :=
  let map := buildOrderbookMap res
  let orders := (load_orders dayOf today stored).1
  let updated := anySyncUpdate map orders
  { status := "success", updated := updated,
    ledger := if updated then applySync map orders else (load_orders dayOf today stored).2 }

/-- A parsed broker API reply (`placesmartorder` / `cancelorder` shape):
`status`, optional `message`, optional `orderid`. -/
structure ApiResult where
  status : String
  message : Option String := none
  orderid : Option String := none
deriving Repr, DecidableEq

/-- Result of `cancel_order_by_id`: the value returned to the caller and
the ledger persisted after the call. -/
structure CancelOutcome where
  result : ApiResult
  ledger : List OrderRec
deriving Repr, DecidableEq

/-- `cancel_order_by_id` of `server.py` (lines 142–154; identical in
`standalone_server.py` lines 154–170).  `res` is the broker's reply to
`cancelorder`.  On success the ledger is loaded and every record whose
`order_id` matches is set to `cancelled` — with no check of its current
status — and the ledger is saved; on failure the file is not touched and
the broker result is returned unchanged. -/
def cancel_order_by_id (res : ApiResult) (dayOf : Nat → Nat) (today : Nat)
    (stored : List OrderRec) (order_id : String) : CancelOutcome :=
  if res.status = "success" then
    { result := res,
      ledger := ((load_orders dayOf today stored).1).map
        (fun o => if o.order_id = order_id then { o with status := "cancelled" } else o) }
  else
    { result := res, ledger := stored }

/-- One entry of the broker positionbook (`symbol`, `quantity`); the code's
`int(float(...))` parse is modelled by taking the quantity as an integer. -/
structure Position where
  symbol : String
  quantity : Int
deriving Repr, DecidableEq

/-- Parsed broker response to the `positionbook` query. -/
structure PositionbookResult where
  status : String
  data : List Position
deriving Repr, DecidableEq

/-- `get_positions` of `server.py` (lines 179–185): the non-zero positions
when the query succeeded, else `[]`. -/
def get_positions (res : PositionbookResult) : List Position :=
  if res.status = "success" then res.data.filter (fun p => p.quantity ≠ 0) else []

/-- `get_position_qty` of `server.py` (lines 188–193): the quantity of the
first position matching `symbol`, else 0. -/
def get_position_qty (res : PositionbookResult) (symbol : String) : Int :=
  match (get_positions res).find? (fun p => p.symbol == symbol) with
  | some p => p.quantity
  | none => 0

/-- Python `str(price) if price else "0"`: `None` and the empty string are
falsy and map to `"0"`. -/
def strOrZero : Option String → String
  | some s => if s ≠ "" then s else "0"
  | none => "0"

/-- The JSON body sent to `placesmartorder` (`server.py` lines 215–228),
minus the ambient `apikey`/`strategy` constants.  `quantity` is kept as a
number (the code serialises it with `str(qty)`). -/
structure SmartOrderPayload where
  symbol : String
  exchange : String
  action : String
  quantity : Nat
  position_size : Int
  product : String
  pricetype : String
  price : String
  trigger_price : String
  disclosed_quantity : String
deriving Repr, DecidableEq

/-- Builds the `placesmartorder` payload dict. -/
def mkSmartPayload (symbol action : String) (qty : Nat) (target : Int)
    (product pricetype : String) (price trig : Option String) : SmartOrderPayload :=
  { symbol := symbol, exchange := "NFO", action := action, quantity := qty,
    position_size := target, product := product, pricetype := pricetype,
    price := strOrZero price, trigger_price := strOrZero trig,
    disclosed_quantity := "0" }

/-- The post-placement persistence step of `place_smart_order`
(`server.py` lines 230–234): store the order only when the broker reported
success, the order is not a market order, and a truthy order id came back. -/
def placePersist (placeRes : ApiResult) (dayOf : Nat → Nat) (today : Nat)
    (stored : List OrderRec) (symbol action : String) (qty : Nat)
    (price : Option String) (pricetype : String) (now : Nat) : List OrderRec :=
  if placeRes.status = "success" ∧ pricetype ≠ "MARKET" then
    match placeRes.orderid with
    | some oid =>
      if oid ≠ "" then
        store_order dayOf today stored oid symbol action qty price pricetype now
      else stored
    | none => stored
  else stored

/-- Result of `place_smart_order`: the value returned to the caller, the
`placesmartorder` payload when the broker endpoint was called (`none` for
the no-op branch), whether `get_position_qty` was invoked, and the ledger
persisted after the call. -/
structure PlaceOutcome where
  result : ApiResult
  brokerCall : Option SmartOrderPayload
  readPosition : Bool
  ledgerAfter : List OrderRec
deriving Repr, DecidableEq

/-- `place_smart_order` of `server.py` (lines 196–235; identical logic in
`standalone_server.py` lines 207–239).  The environment is explicit:
`posRes` is the broker's positionbook reply consulted by
`get_position_qty`, `placeRes` the broker's reply to `placesmartorder`,
`now` the clock read by `store_order`, `stored` the persisted ledger, and
`product` the `settings['common']['product']` value. -/
def place_smart_order (posRes : PositionbookResult) (placeRes : ApiResult)
    (now : Nat) (dayOf : Nat → Nat) (today : Nat) (stored : List OrderRec)
    (product symbol : String) (target_position : Int)
    (pricetype : String) (price trigger_price : Option String) : PlaceOutcome :=
  if target_position = 0 then
    let current := get_position_qty posRes symbol
    if current = 0 then
      { result := { status := "success", message := some "Already flat — no action needed" },
        brokerCall := none, readPosition := true, ledgerAfter := stored }
    else
      let qty := current.natAbs
      let action := if current > 0 then "SELL" else "BUY"
      { result := placeRes,
        brokerCall := some (mkSmartPayload symbol action qty target_position
          product pricetype price trigger_price),
        readPosition := true,
        ledgerAfter := placePersist placeRes dayOf today stored symbol action
          qty price pricetype now }
  else
    let qty := target_position.natAbs
    let action := if target_position > 0 then "BUY" else "SELL"
    { result := placeRes,
      brokerCall := some (mkSmartPayload symbol action qty target_position
        product pricetype price trigger_price),
      readPosition := false,
      ledgerAfter := placePersist placeRes dayOf today stored symbol action
        qty price pricetype now }

/-! ### Concrete fixtures used by witnesses and counterexamples -/

/-- A successful positionbook reply with no positions (flat account). -/
def flatPosBook : PositionbookResult := { status := "success", data := [] }

/-- A successful positionbook reply holding a long 130 position in TESTSYM. -/
def longPosBook : PositionbookResult :=
  { status := "success", data := [{ symbol := "TESTSYM", quantity := 130 }] }

/-- A successful broker reply carrying an order id. -/
def okPlaceRes : ApiResult := { status := "success", orderid := some "OID9" }

/-- A broker failure reply, as `api_post` produces on any communication
failure. -/
def errRes : ApiResult := { status := "error", message := some "network down" }

/-- A pending LIMIT order record for order id OID1. -/
def pendRec : OrderRec :=
  { order_id := "OID1", timestamp := some 0, symbol := "TESTSYM", action := "BUY",
    quantity := 65, price := some "100", pricetype := "LIMIT", status := "pending" }

/-- A record already in the terminal status `complete`. -/
def completeRec : OrderRec :=
  { order_id := "OID2", timestamp := some 0, symbol := "TESTSYM", action := "BUY",
    quantity := 65, price := some "100", pricetype := "LIMIT", status := "complete" }

/-- A record whose JSON lacks the `timestamp` field. -/
def noTsRec : OrderRec :=
  { order_id := "OID3", timestamp := none, symbol := "TESTSYM", action := "SELL",
    quantity := 65, price := none, pricetype := "SL", status := "pending" }

/-- A record explicitly timestamped 0 (the Unix epoch). -/
def zeroTsRec : OrderRec :=
  { order_id := "OID4", timestamp := some 0, symbol := "TESTSYM", action := "BUY",
    quantity := 65, price := none, pricetype := "LIMIT", status := "pending" }

/-- A record timestamped on calendar day 1 (86400 epoch seconds). -/
def ydayRec : OrderRec :=
  { order_id := "OID5", timestamp := some 86400, symbol := "TESTSYM", action := "BUY",
    quantity := 65, price := none, pricetype := "LIMIT", status := "pending" }

/-- Calendar-date function used by the concrete scenarios: the day number
of an epoch-seconds timestamp. -/
def epochDay (t : Nat) : Nat := t / 86400

/-- A successful orderbook reply marking order OID1 COMPLETE. -/
def obComplete : OrderbookResult :=
  { status := "success",
    data := .asList [{ orderid := "OID1", status := "COMPLETE" }] }

/-- A failed orderbook reply that nonetheless carries data: the data of a
failed reply must be ignored. -/
def obError : OrderbookResult :=
  { status := "error",
    data := .asList [{ orderid := "OID1", status := "COMPLETE" }] }

/-! ### Supporting lemmas -/

/-- A left fold of `Nat.min` is bounded by its initial accumulator. -/
theorem foldl_min_le_init (ts : List Nat) (a : Nat) : ts.foldl Nat.min a ≤ a := by
  induction ts generalizing a with
  | nil => exact Nat.le_refl a
  | cons t ts ih => exact Nat.le_trans (ih (Nat.min a t)) (Nat.min_le_left a t)

/-- A left fold of `Nat.min` is bounded by every list element. -/
theorem foldl_min_le_mem (ts : List Nat) (x : Nat) (hx : x ∈ ts) :
    ∀ a, ts.foldl Nat.min a ≤ x := by
  induction hx with
  | head l =>
    intro a
    exact Nat.le_trans (foldl_min_le_init l (Nat.min a x)) (Nat.min_le_right a x)
  | tail b hb ih =>
    intro a
    exact ih (Nat.min a b)

/-- If some record has (defaulted) timestamp 0, the ledger's oldest
timestamp is 0. -/
theorem oldestTimestamp_eq_zero (orders : List OrderRec) (o : OrderRec)
    (ho : o ∈ orders) (hz : timestampD o = 0) : oldestTimestamp orders = 0 := by
  have hmem : (0 : Nat) ∈ orders.map timestampD := by
    rw [← hz]
    exact List.mem_map_of_mem timestampD ho
  unfold oldestTimestamp
  cases hlist : orders.map timestampD with
  | nil => rfl
  | cons t ts =>
    rw [hlist] at hmem
    have hle : ts.foldl Nat.min t ≤ 0 := by
      rcases List.mem_cons.mp hmem with h | h
      · rw [← h]
        exact foldl_min_le_init ts 0
      · exact foldl_min_le_mem ts 0 h t
    exact Nat.le_zero.mp hle

/-- The list `load_orders` returns is exactly the list it leaves persisted. -/
theorem load_orders_fst_eq_snd (dayOf : Nat → Nat) (today : Nat)
    (stored : List OrderRec) :
    (load_orders dayOf today stored).1 = (load_orders dayOf today stored).2 := by
  unfold load_orders
  repeat' split
  all_goals rfl

/-- `load_orders` either resets the ledger or leaves it exactly as stored. -/
theorem load_orders_nil_or_self (dayOf : Nat → Nat) (today : Nat)
    (stored : List OrderRec) :
    load_orders dayOf today stored = ([], []) ∨
      load_orders dayOf today stored = (stored, stored) := by
  unfold load_orders
  repeat' split
  all_goals first
  | exact Or.inl rfl
  | exact Or.inr rfl

/-- Loading what a load just returned is a no-op: the returned list is
already day-consistent. -/
theorem load_orders_of_loaded (dayOf : Nat → Nat) (today : Nat)
    (stored : List OrderRec) :
    load_orders dayOf today ((load_orders dayOf today stored).1)
      = ((load_orders dayOf today stored).1, (load_orders dayOf today stored).1) := by
  rcases load_orders_nil_or_self dayOf today stored with h | h
  · rw [h]
    rfl
  · rw [h]
    exact h

/-- `load_orders` depends on its input ledger only through emptiness and
the oldest timestamp: a ledger sharing both with a day-consistent one is
itself kept as is. -/
theorem load_orders_congr (dayOf : Nat → Nat) (today : Nat)
    (s s' : List OrderRec) (hnil : s = [] ↔ s' = [])
    (hts : oldestTimestamp s = oldestTimestamp s')
    (h : load_orders dayOf today s = (s, s)) :
    load_orders dayOf today s' = (s', s') := by
  by_cases hs' : s' = []
  · rw [hs']
    rfl
  · have hs : s ≠ [] := fun hc => hs' (hnil.mp hc)
    have hdate : ¬ ((if oldestTimestamp s ≠ 0 then dayOf (oldestTimestamp s) else today)
        ≠ today) := by
      intro hd
      have : load_orders dayOf today s = ([], []) := by
        unfold load_orders
        rw [if_pos hs, if_pos hd]
      rw [this] at h
      exact hs (congrArg Prod.fst h).symm
    unfold load_orders
    rw [if_pos hs', if_neg (hts ▸ hdate)]

/-! ### Per-record facts about the reconciliation step -/

/-- A record that is not `pending` passes through the `sync_order_status`
loop untouched, contributing no update. -/
theorem syncOne_eq_of_nonpending (map : List (String × String)) (o : OrderRec)
    (h : o.status ≠ "pending") : syncOne map o = (o, false) := by
  unfold syncOne
  rw [if_neg h]

/-- A pending record absent from the broker mapping is left untouched. -/
theorem syncOne_eq_of_none (map : List (String × String)) (o : OrderRec)
    (hp : o.status = "pending") (hm : mapGet map o.order_id = none) :
    syncOne map o = (o, false) := by
  unfold syncOne
  rw [if_pos hp, hm]

/-- A pending record mapped to a non-terminal broker status is left
untouched. -/
theorem syncOne_eq_of_nonterminal (map : List (String × String)) (o : OrderRec)
    (bs : String) (hp : o.status = "pending")
    (hm : mapGet map o.order_id = some bs) (hb : bs ∉ terminalBroker) :
    syncOne map o = (o, false) := by
  unfold syncOne
  rw [if_pos hp, hm]
  exact if_neg hb

/-- A pending record mapped to a terminal broker status becomes that
status, lower-cased, and contributes an update. -/
theorem syncOne_eq_of_terminal (map : List (String × String)) (o : OrderRec)
    (bs : String) (hp : o.status = "pending")
    (hm : mapGet map o.order_id = some bs) (hb : bs ∈ terminalBroker) :
    syncOne map o = ({ o with status := lowerStr bs }, true) := by
  unfold syncOne
  rw [if_pos hp, hm]
  exact if_pos hb

/-- The lower-casing of a terminal broker status is never `pending`. -/
theorem terminal_lower_ne_pending (bs : String) (hb : bs ∈ terminalBroker) :
    lowerStr bs ≠ "pending" := by
  simp only [terminalBroker, List.mem_cons, List.not_mem_nil, or_false] at hb
  rcases hb with rfl | rfl | rfl | rfl
  all_goals decide

/-- The lower-casing of a terminal broker status is one of the four local
terminal states. -/
theorem terminal_lower_mem (bs : String) (hb : bs ∈ terminalBroker) :
    lowerStr bs ∈ (["complete", "rejected", "cancelled", "closed"] : List String) := by
  simp only [terminalBroker, List.mem_cons, List.not_mem_nil, or_false] at hb
  rcases hb with rfl | rfl | rfl | rfl
  all_goals decide

/-- The reconciliation step never changes a record's timestamp. -/
theorem syncOne_timestamp (map : List (String × String)) (o : OrderRec) :
    ((syncOne map o).1).timestamp = o.timestamp := by
  unfold syncOne
  repeat' split
  all_goals rfl

/-- Applying the reconciliation step to an already-reconciled record is a
no-op reporting no update. -/
theorem syncOne_idem (map : List (String × String)) (o : OrderRec) :
    syncOne map ((syncOne map o).1) = ((syncOne map o).1, false) := by
  by_cases hp : o.status = "pending"
  · cases hm : mapGet map o.order_id with
    | none =>
      rw [syncOne_eq_of_none map o hp hm]
      exact syncOne_eq_of_none map o hp hm
    | some bs =>
      by_cases hb : bs ∈ terminalBroker
      · rw [syncOne_eq_of_terminal map o bs hp hm hb]
        exact syncOne_eq_of_nonpending map _ (terminal_lower_ne_pending bs hb)
      · rw [syncOne_eq_of_nonterminal map o bs hp hm hb]
        exact syncOne_eq_of_nonterminal map o bs hp hm hb
  · rw [syncOne_eq_of_nonpending map o hp]
    exact syncOne_eq_of_nonpending map o hp

/-- With an empty broker mapping, the reconciliation step touches nothing. -/
theorem syncOne_empty_map (o : OrderRec) : syncOne [] o = (o, false) := by
  by_cases hp : o.status = "pending"
  · exact syncOne_eq_of_none [] o hp rfl
  · exact syncOne_eq_of_nonpending [] o hp

/-! ### Ledger-level facts about the reconciliation step -/

/-- A map whose function fixes every element of the list is the identity. -/
theorem map_self_of_mem {α : Type} (f : α → α) (l : List α)
    (h : ∀ x ∈ l, f x = x) : l.map f = l := by
  induction l with
  | nil => rfl
  | cons a l ih =>
    rw [List.map_cons, h a (List.mem_cons_self a l),
      ih (fun x hx => h x (List.mem_cons_of_mem a hx))]

/-- If the loop reported no update, it changed no record. -/
theorem applySync_of_no_update (map : List (String × String))
    (orders : List OrderRec) (h : anySyncUpdate map orders = false) :
    applySync map orders = orders := by
  unfold anySyncUpdate at h
  rw [List.any_eq_false] at h
  apply map_self_of_mem
  intro o ho
  have h2 : (syncOne map o).2 = false := by
    have := h o ho
    simpa using this
  by_cases hp : o.status = "pending"
  · cases hm : mapGet map o.order_id with
    | none => rw [syncOne_eq_of_none map o hp hm]
    | some bs =>
      by_cases hb : bs ∈ terminalBroker
      · rw [syncOne_eq_of_terminal map o bs hp hm hb] at h2
        simp at h2
      · rw [syncOne_eq_of_nonterminal map o bs hp hm hb]
  · rw [syncOne_eq_of_nonpending map o hp]

/-- The ledger persisted by `sync_order_status` is always the loop's
output applied to the loaded ledger: when nothing updated, the skipped
save makes no difference because the loop then changed nothing. -/
theorem sync_ledger_eq (res : OrderbookResult) (dayOf : Nat → Nat) (today : Nat)
    (stored : List OrderRec) :
    (sync_order_status res dayOf today stored).ledger
      = applySync (buildOrderbookMap res) ((load_orders dayOf today stored).1) := by
  unfold sync_order_status
  by_cases h : anySyncUpdate (buildOrderbookMap res) ((load_orders dayOf today stored).1)
      = true
  · simp only [h, if_true]
  · have hf : anySyncUpdate (buildOrderbookMap res) ((load_orders dayOf today stored).1)
        = false := by
      revert h
      cases anySyncUpdate (buildOrderbookMap res) ((load_orders dayOf today stored).1)
      · intro _
        rfl
      · intro hc
        exact absurd rfl hc
    simp only [hf, Bool.false_eq_true, if_false]
    rw [applySync_of_no_update _ _ hf, load_orders_fst_eq_snd]

/-- Reconciling an already-reconciled ledger changes nothing. -/
theorem applySync_idem (map : List (String × String)) (l : List OrderRec) :
    applySync map (applySync map l) = applySync map l := by
  unfold applySync
  rw [List.map_map]
  have hfun : ((fun o => (syncOne map o).1) ∘ fun o => (syncOne map o).1)
      = fun o => (syncOne map o).1 := by
    funext o
    show (syncOne map ((syncOne map o).1)).1 = (syncOne map o).1
    rw [syncOne_idem map o]
  rw [hfun]

/-- Reconciling an already-reconciled ledger reports no update. -/
theorem anySyncUpdate_applySync (map : List (String × String)) (l : List OrderRec) :
    anySyncUpdate map (applySync map l) = false := by
  unfold anySyncUpdate applySync
  rw [List.any_map, List.any_eq_false]
  intro o _
  have := congrArg Prod.snd (syncOne_idem map o)
  simpa using this

/-- The reconciliation loop preserves the oldest timestamp of the ledger. -/
theorem oldestTimestamp_applySync (map : List (String × String)) (l : List OrderRec) :
    oldestTimestamp (applySync map l) = oldestTimestamp l := by
  unfold oldestTimestamp applySync
  rw [List.map_map]
  have hfun : (timestampD ∘ fun o => (syncOne map o).1) = timestampD := by
    funext o
    show timestampD ((syncOne map o).1) = timestampD o
    unfold timestampD
    rw [syncOne_timestamp map o]
  rw [hfun]

/-- The reconciliation loop preserves emptiness of the ledger. -/
theorem applySync_eq_nil_iff (map : List (String × String)) (l : List OrderRec) :
    applySync map l = [] ↔ l = [] := by
  unfold applySync
  exact List.map_eq_nil_iff

/-- `sync_order_status` always reports `status = "success"`. -/
theorem sync_status_eq (res : OrderbookResult) (dayOf : Nat → Nat) (today : Nat)
    (stored : List OrderRec) :
    (sync_order_status res dayOf today stored).status = "success" := rfl

/-- The `updated` flag of `sync_order_status` is the loop's any-change flag
over the loaded ledger. -/
theorem sync_updated_eq (res : OrderbookResult) (dayOf : Nat → Nat) (today : Nat)
    (stored : List OrderRec) :
    (sync_order_status res dayOf today stored).updated
      = anySyncUpdate (buildOrderbookMap res) ((load_orders dayOf today stored).1) := rfl

/-- The i-th record persisted by `sync_order_status` is the loop body
applied to the i-th loaded record. -/
theorem sync_ledger_get (res : OrderbookResult) (dayOf : Nat → Nat) (today : Nat)
    (stored : List OrderRec) (i : Nat)
    (h1 : i < ((load_orders dayOf today stored).1).length)
    (h2 : i < (sync_order_status res dayOf today stored).ledger.length) :
    (sync_order_status res dayOf today stored).ledger.get ⟨i, h2⟩
      = (syncOne (buildOrderbookMap res)
          (((load_orders dayOf today stored).1).get ⟨i, h1⟩)).1 := by
  have he := sync_ledger_eq res dayOf today stored
  simp only [List.get_eq_getElem, he, applySync, List.getElem_map]

/-- Every record either keeps its status through the reconciliation step,
or was `pending` and now carries one of the four local terminal statuses. -/
theorem syncOne_status_cases (map : List (String × String)) (o : OrderRec) :
    ((syncOne map o).1).status = o.status ∨
      (o.status = "pending" ∧
        ((syncOne map o).1).status
          ∈ (["complete", "rejected", "cancelled", "closed"] : List String)) := by
  by_cases hp : o.status = "pending"
  · cases hm : mapGet map o.order_id with
    | none =>
      left
      rw [syncOne_eq_of_none map o hp hm]
    | some bs =>
      by_cases hb : bs ∈ terminalBroker
      · right
        refine ⟨hp, ?_⟩
        rw [syncOne_eq_of_terminal map o bs hp hm hb]
        exact terminal_lower_mem bs hb
      · left
        rw [syncOne_eq_of_nonterminal map o bs hp hm hb]
  · left
    rw [syncOne_eq_of_nonpending map o hp]

/-- On broker success, `cancel_order_by_id` persists the loaded ledger with
every record matching the order id unconditionally set to `cancelled`. -/
theorem cancel_ledger_eq (cres : ApiResult) (dayOf : Nat → Nat) (today : Nat)
    (stored : List OrderRec) (oid : String) (h : cres.status = "success") :
    (cancel_order_by_id cres dayOf today stored oid).ledger
      = ((load_orders dayOf today stored).1).map
          (fun o => if o.order_id = oid then { o with status := "cancelled" } else o) := by
  unfold cancel_order_by_id
  rw [if_pos h]

/-- The i-th record persisted by a successful cancel is the i-th loaded
record, with its status overwritten when its order id matches. -/
theorem cancel_ledger_get (cres : ApiResult) (dayOf : Nat → Nat) (today : Nat)
    (stored : List OrderRec) (oid : String) (h : cres.status = "success") (i : Nat)
    (h1 : i < ((load_orders dayOf today stored).1).length)
    (h2 : i < (cancel_order_by_id cres dayOf today stored oid).ledger.length) :
    (cancel_order_by_id cres dayOf today stored oid).ledger.get ⟨i, h2⟩
      = (if (((load_orders dayOf today stored).1).get ⟨i, h1⟩).order_id = oid
         then { ((load_orders dayOf today stored).1).get ⟨i, h1⟩ with status := "cancelled" }
         else ((load_orders dayOf today stored).1).get ⟨i, h1⟩) := by
  have he := cancel_ledger_eq cres dayOf today stored oid h
  simp only [List.get_eq_getElem, he, List.getElem_map]

/-! ### Claim theorems -/

/-- C2: for `target_position == 0`, `place_smart_order` fetches the current
net quantity for the symbol; if that quantity is 0 it returns the no-op
success result without calling the broker order-placement endpoint;
otherwise it places an order with quantity `abs(current)` and action `SELL`
when current > 0, `BUY` when current < 0. -/
theorem place_smart_order_flat_target (posRes : PositionbookResult)
    (placeRes : ApiResult) (now : Nat) (dayOf : Nat → Nat) (today : Nat)
    (stored : List OrderRec) (product symbol : String) (pricetype : String)
    (price trig : Option String) (target : Int) (ht : target = 0) :
    (get_position_qty posRes symbol = 0 →
      place_smart_order posRes placeRes now dayOf today stored product symbol
          target pricetype price trig
        = { result := { status := "success",
                        message := some "Already flat — no action needed" },
            brokerCall := none, readPosition := true, ledgerAfter := stored }) ∧
    (get_position_qty posRes symbol ≠ 0 →
      (place_smart_order posRes placeRes now dayOf today stored product symbol
          target pricetype price trig).readPosition = true ∧
      ((place_smart_order posRes placeRes now dayOf today stored product symbol
          target pricetype price trig).brokerCall.map
            (fun p => (p.action, p.quantity)))
        = some ((if get_position_qty posRes symbol > 0 then "SELL" else "BUY"),
            (get_position_qty posRes symbol).natAbs)) := by
  subst ht
  constructor
  · intro h0
    simp [place_smart_order, h0]
  · intro hne
    constructor
    · simp [place_smart_order, hne]
    · simp [place_smart_order, hne, mkSmartPayload]

/-- C3: for every `target_position != 0`, `place_smart_order` sends a
broker order with quantity `abs(target_position)` and action `BUY` when
positive, `SELL` when negative, and never reads the current position in
this branch. -/
theorem place_smart_order_nonzero_target (posRes : PositionbookResult)
    (placeRes : ApiResult) (now : Nat) (dayOf : Nat → Nat) (today : Nat)
    (stored : List OrderRec) (product symbol : String) (pricetype : String)
    (price trig : Option String) (target : Int) (ht : target ≠ 0) :
    (place_smart_order posRes placeRes now dayOf today stored product symbol
        target pricetype price trig).readPosition = false ∧
    ((place_smart_order posRes placeRes now dayOf today stored product symbol
        target pricetype price trig).brokerCall.map
          (fun p => (p.action, p.quantity)))
      = some ((if target > 0 then "BUY" else "SELL"), target.natAbs) := by
  constructor
  · simp [place_smart_order, ht]
  · simp [place_smart_order, ht, mkSmartPayload]

/-- C8: a `place_smart_order` call with pricetype `MARKET` adds no record
to the ledger: the persisted ledger after the call equals the ledger
before it, whatever the broker replied. -/
theorem place_smart_order_market_not_persisted (posRes : PositionbookResult)
    (placeRes : ApiResult) (now : Nat) (dayOf : Nat → Nat) (today : Nat)
    (stored : List OrderRec) (product symbol : String)
    (price trig : Option String) (target : Int) :
    (place_smart_order posRes placeRes now dayOf today stored product symbol
        target "MARKET" price trig).ledgerAfter = stored := by
  by_cases ht : target = 0
  · by_cases h0 : get_position_qty posRes symbol = 0
    · simp [place_smart_order, ht, h0]
    · simp [place_smart_order, ht, h0, placePersist]
  · simp [place_smart_order, ht, placePersist]

/-- Witness for C2: concrete flat and long positions with target 0. -/
theorem place_smart_order_flat_target_witness :
    place_smart_order flatPosBook okPlaceRes 5 epochDay 0 [] "MIS" "TESTSYM" 0
        "MARKET" none none
      = { result := { status := "success",
                      message := some "Already flat — no action needed" },
          brokerCall := none, readPosition := true, ledgerAfter := [] } ∧
    ((place_smart_order longPosBook okPlaceRes 5 epochDay 0 [] "MIS" "TESTSYM" 0
        "MARKET" none none).brokerCall.map (fun p => (p.action, p.quantity)))
      = some ("SELL", 130) := by
  constructor
  · exact (place_smart_order_flat_target flatPosBook okPlaceRes 5 epochDay 0 []
      "MIS" "TESTSYM" "MARKET" none none 0 rfl).1 (by decide)
  · have h := (place_smart_order_flat_target longPosBook okPlaceRes 5 epochDay 0 []
      "MIS" "TESTSYM" "MARKET" none none 0 rfl).2 (by decide)
    rw [h.2]
    decide

/-- Witness for C3: concrete targets +130 and −65. -/
theorem place_smart_order_nonzero_target_witness :
    ((place_smart_order flatPosBook okPlaceRes 5 epochDay 0 [] "MIS" "TESTSYM" 130
        "MARKET" none none).brokerCall.map (fun p => (p.action, p.quantity)))
      = some ("BUY", 130) ∧
    ((place_smart_order flatPosBook okPlaceRes 5 epochDay 0 [] "MIS" "TESTSYM" (-65)
        "LIMIT" (some "10") none).brokerCall.map (fun p => (p.action, p.quantity)))
      = some ("SELL", 65) ∧
    (place_smart_order flatPosBook okPlaceRes 5 epochDay 0 [] "MIS" "TESTSYM" 130
        "MARKET" none none).readPosition = false := by
  refine ⟨?_, ?_, ?_⟩
  · have h := (place_smart_order_nonzero_target flatPosBook okPlaceRes 5 epochDay 0 []
      "MIS" "TESTSYM" "MARKET" none none 130 (by decide)).2
    rw [h]
    decide
  · have h := (place_smart_order_nonzero_target flatPosBook okPlaceRes 5 epochDay 0 []
      "MIS" "TESTSYM" "LIMIT" (some "10") none (-65) (by decide)).2
    rw [h]
    decide
  · exact (place_smart_order_nonzero_target flatPosBook okPlaceRes 5 epochDay 0 []
      "MIS" "TESTSYM" "MARKET" none none 130 (by decide)).1

/-- C4 (amended): on every read of the ledger, if the ledger is non-empty
and its minimum timestamp is nonzero and has a calendar date differing
from today's, all records are discarded: an empty ledger is persisted and
an empty list is returned.  (The nonzero proviso is forced by the
`if oldest` truthiness test of the code: a minimum timestamp of 0 is
treated as today — see the C9 theorem and the C4 counterexample.) -/
theorem load_orders_rollover (dayOf : Nat → Nat) (today : Nat)
    (stored : List OrderRec) (hne : stored ≠ [])
    (hz : oldestTimestamp stored ≠ 0)
    (hd : dayOf (oldestTimestamp stored) ≠ today) :
    load_orders dayOf today stored = ([], []) := by
  unfold load_orders
  rw [if_pos hne, if_pos hz, if_pos hd]

/-- C4 counterexample: a non-empty ledger whose only record is timestamped
0 (the epoch, calendar day 0, differing from today = day 20000) is kept
unchanged by `load_orders` instead of being discarded as the claim
requires. -/
theorem load_orders_rollover_cx :
    ([zeroTsRec] : List OrderRec) ≠ [] ∧
    epochDay (oldestTimestamp [zeroTsRec]) ≠ 20000 ∧
    load_orders epochDay 20000 [zeroTsRec] = ([zeroTsRec], [zeroTsRec]) := by
  decide

/-- Witness for the amended C4: a ledger holding only a record from
calendar day 1, loaded on day 2, comes back empty and empties the file. -/
theorem load_orders_rollover_witness :
    load_orders epochDay 2 [ydayRec] = ([], []) :=
  load_orders_rollover epochDay 2 [ydayRec] (by decide) (by decide) (by decide)

/-- C9: if any record in the ledger has a missing or zero `timestamp`
field, `load_orders` treats the whole ledger as belonging to the current
day and performs no day-rollover reset, even when other records fall on a
prior calendar date: the minimum over defaulted timestamps is 0, which the
`if oldest` truthiness test maps to today rather than to the epoch date. -/
theorem load_orders_zero_timestamp_keeps (dayOf : Nat → Nat) (today : Nat)
    (stored : List OrderRec) (o : OrderRec) (ho : o ∈ stored)
    (hz : timestampD o = 0) :
    load_orders dayOf today stored = (stored, stored) := by
  have h0 : oldestTimestamp stored = 0 := oldestTimestamp_eq_zero stored o ho hz
  by_cases hne : stored ≠ []
  · unfold load_orders
    rw [if_pos hne, h0]
    simp
  · unfold load_orders
    rw [if_neg hne]

/-- Witness for C9: a ledger with one record missing its timestamp and one
record from calendar day 1 is kept whole when loaded on day 20000. -/
theorem load_orders_zero_timestamp_keeps_witness :
    load_orders epochDay 20000 [noTsRec, ydayRec]
      = ([noTsRec, ydayRec], [noTsRec, ydayRec]) :=
  load_orders_zero_timestamp_keeps epochDay 20000 [noTsRec, ydayRec] noTsRec
    (by decide) (by decide)

/-- C5: during `sync_order_status`, every loaded record with status
`pending` whose order id the broker mapping sends to one of COMPLETE,
REJECTED, CANCELLED, CLOSED gets the lower-cased value as its new status;
a pending record whose order id is absent from the mapping, or mapped to
any other string, keeps status `pending` (is unchanged); records not in
status `pending` are never modified. -/
theorem sync_order_status_per_record (res : OrderbookResult) (dayOf : Nat → Nat)
    (today : Nat) (stored : List OrderRec) (i : Nat)
    (h1 : i < ((load_orders dayOf today stored).1).length)
    (h2 : i < (sync_order_status res dayOf today stored).ledger.length) :
    ((((load_orders dayOf today stored).1).get ⟨i, h1⟩).status = "pending" →
      (∀ bs, mapGet (buildOrderbookMap res)
            ((((load_orders dayOf today stored).1).get ⟨i, h1⟩).order_id) = some bs →
        bs ∈ terminalBroker →
          (sync_order_status res dayOf today stored).ledger.get ⟨i, h2⟩
            = { ((load_orders dayOf today stored).1).get ⟨i, h1⟩ with
                status := lowerStr bs }) ∧
      (∀ bs, mapGet (buildOrderbookMap res)
            ((((load_orders dayOf today stored).1).get ⟨i, h1⟩).order_id) = some bs →
        bs ∉ terminalBroker →
          (sync_order_status res dayOf today stored).ledger.get ⟨i, h2⟩
            = ((load_orders dayOf today stored).1).get ⟨i, h1⟩) ∧
      (mapGet (buildOrderbookMap res)
            ((((load_orders dayOf today stored).1).get ⟨i, h1⟩).order_id) = none →
        (sync_order_status res dayOf today stored).ledger.get ⟨i, h2⟩
          = ((load_orders dayOf today stored).1).get ⟨i, h1⟩)) ∧
    ((((load_orders dayOf today stored).1).get ⟨i, h1⟩).status ≠ "pending" →
      (sync_order_status res dayOf today stored).ledger.get ⟨i, h2⟩
        = ((load_orders dayOf today stored).1).get ⟨i, h1⟩) := by
  have hg := sync_ledger_get res dayOf today stored i h1 h2
  refine ⟨fun hp => ⟨?_, ?_, ?_⟩, fun hnp => ?_⟩
  · intro bs hm hb
    rw [hg, syncOne_eq_of_terminal _ _ bs hp hm hb]
  · intro bs hm hb
    rw [hg, syncOne_eq_of_nonterminal _ _ bs hp hm hb]
  · intro hm
    rw [hg, syncOne_eq_of_none _ _ hp hm]
  · rw [hg, syncOne_eq_of_nonpending _ _ hnp]

/-- Witness for C5: reconciling the pending OID1 record against a broker
orderbook marking OID1 COMPLETE turns its status into `complete`. -/
theorem sync_order_status_per_record_witness :
    (sync_order_status obComplete epochDay 0 [pendRec]).ledger.get ⟨0, by decide⟩
      = { pendRec with status := "complete" } := by
  have h := (sync_order_status_per_record obComplete epochDay 0 [pendRec] 0
      (by decide) (by decide)).1 (by decide)
  have ht := h.1 "COMPLETE" (by decide) (by decide)
  exact ht.trans (by decide)

/-- C6: reconcile is idempotent with respect to a fixed broker orderbook:
running `sync_order_status` again over the ledger the first run persisted,
with the same broker reply, yields `updated = false` and leaves the ledger
unchanged. -/
theorem sync_order_status_idempotent (res : OrderbookResult) (dayOf : Nat → Nat)
    (today : Nat) (stored : List OrderRec) :
    (sync_order_status res dayOf today
        ((sync_order_status res dayOf today stored).ledger)).updated = false ∧
    (sync_order_status res dayOf today
        ((sync_order_status res dayOf today stored).ledger)).ledger
      = (sync_order_status res dayOf today stored).ledger := by
  have h1 : (sync_order_status res dayOf today stored).ledger
      = applySync (buildOrderbookMap res) ((load_orders dayOf today stored).1) :=
    sync_ledger_eq res dayOf today stored
  have hload : load_orders dayOf today
      (applySync (buildOrderbookMap res) ((load_orders dayOf today stored).1))
      = (applySync (buildOrderbookMap res) ((load_orders dayOf today stored).1),
         applySync (buildOrderbookMap res) ((load_orders dayOf today stored).1)) := by
    apply load_orders_congr dayOf today ((load_orders dayOf today stored).1)
    · constructor
      · intro h
        rw [h]
        rfl
      · exact fun h => (applySync_eq_nil_iff _ _).mp h
    · exact (oldestTimestamp_applySync _ _).symm
    · exact load_orders_of_loaded dayOf today stored
  constructor
  · rw [h1, sync_updated_eq, hload]
    exact anySyncUpdate_applySync _ _
  · rw [h1, sync_ledger_eq, hload]
    exact applySync_idem _ _

/-- C7: if the broker cancel call returns a non-success result,
`cancel_order_by_id` performs no write to the ledger — every record keeps
its status — and the broker's result is returned to the caller unchanged. -/
theorem cancel_order_by_id_fail_untouched (res : ApiResult) (dayOf : Nat → Nat)
    (today : Nat) (stored : List OrderRec) (oid : String)
    (h : res.status ≠ "success") :
    cancel_order_by_id res dayOf today stored oid
      = { result := res, ledger := stored } := by
  unfold cancel_order_by_id
  rw [if_neg h]

/-- Witness for C7: a failed cancel of OID1 over a ledger holding the
pending OID1 record leaves it pending and surfaces the error unchanged. -/
theorem cancel_order_by_id_fail_untouched_witness :
    cancel_order_by_id errRes epochDay 0 [pendRec] "OID1"
      = { result := errRes, ledger := [pendRec] } :=
  cancel_order_by_id_fail_untouched errRes epochDay 0 [pendRec] "OID1" (by decide)

/-- C10: `sync_order_status` always returns `status = "success"`; when the
broker orderbook reply is not a success, the built mapping is empty, no
record changes, the ledger is not rewritten, and the caller receives
`updated = false` — indistinguishable from a no-update run. -/
theorem sync_order_status_broker_fail (res : OrderbookResult) (dayOf : Nat → Nat)
    (today : Nat) (stored : List OrderRec) :
    (sync_order_status res dayOf today stored).status = "success" ∧
    (res.status ≠ "success" →
      buildOrderbookMap res = [] ∧
      (sync_order_status res dayOf today stored).updated = false ∧
      (sync_order_status res dayOf today stored).ledger
        = (load_orders dayOf today stored).1) := by
  refine ⟨rfl, fun h => ?_⟩
  have hmap : buildOrderbookMap res = [] := by
    unfold buildOrderbookMap
    rw [if_neg h]
  have happ : applySync (buildOrderbookMap res) ((load_orders dayOf today stored).1)
      = (load_orders dayOf today stored).1 := by
    rw [hmap]
    unfold applySync
    apply map_self_of_mem
    intro o _
    exact congrArg Prod.fst (syncOne_empty_map o)
  have hupd : anySyncUpdate (buildOrderbookMap res)
      ((load_orders dayOf today stored).1) = false := by
    rw [hmap]
    unfold anySyncUpdate
    rw [List.any_eq_false]
    intro o _
    have hs := congrArg Prod.snd (syncOne_empty_map o)
    simpa using hs
  refine ⟨hmap, ?_, ?_⟩
  · rw [sync_updated_eq]
    exact hupd
  · rw [sync_ledger_eq, happ]

/-- Witness for C10: a failed orderbook reply that even carries COMPLETE
data for the pending OID1 record changes nothing and reports success with
no update. -/
theorem sync_order_status_broker_fail_witness :
    (sync_order_status obError epochDay 0 [pendRec]).status = "success" ∧
    (sync_order_status obError epochDay 0 [pendRec]).updated = false ∧
    (sync_order_status obError epochDay 0 [pendRec]).ledger = [pendRec] := by
  have h := sync_order_status_broker_fail obError epochDay 0 [pendRec]
  have h2 := h.2 (by decide)
  refine ⟨h.1, h2.2.1, ?_⟩
  rw [h2.2.2]
  decide

/-- C1 (amended): every ledger record is created with status `pending`;
`sync_order_status` never modifies a record not in status `pending` and
moves a pending record only to one of the lower-cased terminal states
(`complete`, `rejected`, `cancelled`, `closed`); but `cancel_order_by_id`
after a successful broker cancel sets the status of every record with the
given order id to `cancelled` unconditionally — including records whose
status is already `complete`, `rejected`, or `closed`. -/
theorem status_lifecycle (res : OrderbookResult) (cres : ApiResult)
    (dayOf : Nat → Nat) (today : Nat) (stored : List OrderRec)
    (oid nid symbol action : String) (qty : Nat) (price : Option String)
    (pricetype : String) (now : Nat) :
    ((store_order dayOf today stored nid symbol action qty price pricetype now).map
        OrderRec.status
      = (((load_orders dayOf today stored).1).map OrderRec.status) ++ ["pending"]) ∧
    (∀ i (h1 : i < ((load_orders dayOf today stored).1).length)
        (h2 : i < (sync_order_status res dayOf today stored).ledger.length),
      ((sync_order_status res dayOf today stored).ledger.get ⟨i, h2⟩).status
          = (((load_orders dayOf today stored).1).get ⟨i, h1⟩).status ∨
        ((((load_orders dayOf today stored).1).get ⟨i, h1⟩).status = "pending" ∧
          ((sync_order_status res dayOf today stored).ledger.get ⟨i, h2⟩).status
            ∈ (["complete", "rejected", "cancelled", "closed"] : List String))) ∧
    (∀ i (h1 : i < ((load_orders dayOf today stored).1).length)
        (h2 : i < (sync_order_status res dayOf today stored).ledger.length),
      (((load_orders dayOf today stored).1).get ⟨i, h1⟩).status ≠ "pending" →
        (sync_order_status res dayOf today stored).ledger.get ⟨i, h2⟩
          = ((load_orders dayOf today stored).1).get ⟨i, h1⟩) ∧
    (cres.status = "success" →
      ∀ i (h1 : i < ((load_orders dayOf today stored).1).length)
          (h3 : i < (cancel_order_by_id cres dayOf today stored oid).ledger.length),
        ((((load_orders dayOf today stored).1).get ⟨i, h1⟩).order_id = oid →
          (cancel_order_by_id cres dayOf today stored oid).ledger.get ⟨i, h3⟩
            = { ((load_orders dayOf today stored).1).get ⟨i, h1⟩ with
                status := "cancelled" }) ∧
        ((((load_orders dayOf today stored).1).get ⟨i, h1⟩).order_id ≠ oid →
          (cancel_order_by_id cres dayOf today stored oid).ledger.get ⟨i, h3⟩
            = ((load_orders dayOf today stored).1).get ⟨i, h1⟩)) := by
  refine ⟨?_, ?_, ?_, ?_⟩
  · unfold store_order
    rw [List.map_append]
    rfl
  · intro i h1 h2
    rw [sync_ledger_get res dayOf today stored i h1 h2]
    exact syncOne_status_cases _ _
  · intro i h1 h2 hnp
    rw [sync_ledger_get res dayOf today stored i h1 h2,
      syncOne_eq_of_nonpending _ _ hnp]
  · intro hs i h1 h3
    have hg := cancel_ledger_get cres dayOf today stored oid hs i h1 h3
    constructor
    · intro hid
      rw [hg, if_pos hid]
    · intro hid
      rw [hg, if_neg hid]

/-- C1 counterexample: a successful broker cancel of OID2 over a ledger
whose only record, with order id OID2, is already in the terminal status
`complete`, rewrites that record's status to `cancelled`: an operation
does change a record that is already in a terminal state. -/
theorem cancel_overwrites_terminal_cx :
    completeRec.status = "complete" ∧
    (cancel_order_by_id { status := "success" } epochDay 0 [completeRec]
        "OID2").ledger
      = [{ completeRec with status := "cancelled" }] := by
  decide

/-- Witness for the amended C1: concretely, storing a new order appends a
pending record, reconciling leaves the terminal `complete` record
unchanged, and a successful cancel rewrites it to `cancelled`. -/
theorem status_lifecycle_witness :
    ((store_order epochDay 0 [completeRec] "OID9" "TESTSYM" "BUY" 65 none
        "LIMIT" 5).map OrderRec.status = ["complete", "pending"]) ∧
    (sync_order_status obError epochDay 0 [completeRec]).ledger.get ⟨0, by decide⟩
      = completeRec ∧
    (cancel_order_by_id { status := "success" } epochDay 0 [completeRec]
        "OID2").ledger.get ⟨0, by decide⟩
      = { completeRec with status := "cancelled" } := by
  have h := status_lifecycle obError { status := "success" } epochDay 0 [completeRec]
    "OID2" "OID9" "TESTSYM" "BUY" 65 none "LIMIT" 5
  refine ⟨h.1.trans (by decide), ?_, ?_⟩
  · exact (h.2.2.1 0 (by decide) (by decide) (by decide)).trans (by decide)
  · exact ((h.2.2.2 (by decide) 0 (by decide) (by decide)).1 (by decide)).trans
      (by decide)

end TradingApp
